import Mathlib

/-!
Verification of the AWS-hackathon educational content generator.

This file shallowly embeds the bookkeeping/persistence logic of
`assessment_service.py` and `roadmap_service.py`:

* the Progress Tracker (`submit_assessment_result`): per-session XP,
  unlocked-level, history, and deduplicated mistake log;
* assessment generation (`generate_assessment`): cache-by-file-existence,
  "no documents" and generic-failure error paths;
* the Text Extractor (`get_session_text`);
* the response normalizers (markdown-fence stripping plus JSON parsing);
* the roadmap operations `update_progress` and `generate_week_content`.

External collaborators (the LLM, `json.loads`, `json_repair.repair_json`,
`partition_pdf`, the filesystem clock) are modelled as explicit oracle
parameters; the file stores are modelled as association lists keyed by the
same keys the code uses for file names.  Python strings are modelled by
`String` viewed as its list of characters, with helpers mirroring the exact
slicing the code performs.
-/

namespace AWSHack

/-! ### Python string helpers

These model the Python string operations used by the services, working on
`String.data` so that everything reduces by computation. -/

/-- Python `s.startswith(p)`. -/
def pyStartsWith (s p : String) : Bool :=
  s.data.take p.data.length == p.data

/-- Python `s.endswith(p)`.  (When `p` is longer than `s` the dropped list
is all of `s`, which cannot equal the longer `p`, so this is `false`.) -/
def pyEndsWith (s p : String) : Bool :=
  s.data.drop (s.data.length - p.data.length) == p.data

/-- Python `s[n:]`. -/
def pyDrop (s : String) (n : Nat) : String :=
  ⟨s.data.drop n⟩

/-- Python `s[:-n]` (for `n ≥ 1`; empty result when `n ≥ len(s)`). -/
def pyDropRight (s : String) (n : Nat) : String :=
  ⟨s.data.take (s.data.length - n)⟩

/-- Python `s[:n]`. -/
def pyTake (s : String) (n : Nat) : String :=
  ⟨s.data.take n⟩

/-- Python `s.strip()` (whitespace from both ends). -/
def pyStrip (s : String) : String :=
  ⟨((s.data.dropWhile Char.isWhitespace).reverse.dropWhile Char.isWhitespace).reverse⟩

/-- Python `s.lower()`. -/
def pyLower (s : String) : String :=
  ⟨s.data.map Char.toLower⟩

/-! ### Progress Tracker data model (`assessment_service.py`) -/

/-- One element of the `history` list appended by `submit_assessment_result`
(lines 217–224); the timestamp string is an oracle input. -/
structure SubmissionEvent where
  level : Int
  score : Int
  max_score : Int
  passed : Bool
  xp_gained : Nat
  timestamp : String
deriving DecidableEq, Repr

/-- One element of the `mistakes` list (lines 231–239).  Keys read with
`dict.get` are `Option`-valued, mirroring Python `None` defaults. -/
structure MistakeEntry where
  question : String
  correct_answer : Option String
  explanation : Option String
  user_answer : Option String
  level : Int
  comments : String
  timestamp : String
deriving DecidableEq, Repr

/-- An input mistake dict supplied by the caller: `m["question"]` is a
mandatory key, the rest are read with `.get`. -/
structure MistakeIn where
  question : String
  correct_answer : Option String
  explanation : Option String
  user_answer : Option String
deriving DecidableEq, Repr

/-- The per-session record stored in `user_progress.json`.  The lazy
`"mistakes"` key insertion of lines 184–185 is absorbed by the field always
being present. -/
structure UserData where
  xp : Nat
  unlocked_level : Int
  history : List SubmissionEvent
  mistakes : List MistakeEntry
deriving DecidableEq, Repr

/-- The default record created on first submission (line 182). -/
def initUser : UserData :=
  { xp := 0, unlocked_level := 1, history := [], mistakes := [] }

/-- The dict returned by `submit_assessment_result` (lines 243–249). -/
structure SubmitResult where
  passed : Bool
  xp_gained : Nat
  new_total_xp : Nat
  unlocked_level : Int
  score : Int
deriving DecidableEq, Repr

/-! ### The store (the JSON progress file, keyed by session id) -/

/-- Lookup in an association-list store (a JSON object keyed by strings). -/
def lookupS {α : Type} : List (String × α) → String → Option α
  | [], _ => none
  | (k', v) :: rest, k => if k' = k then some v else lookupS rest k

/-- Python dict assignment `store[k] = v`: replace the binding if present,
otherwise add it. -/
def setStore {α : Type} : List (String × α) → String → α → List (String × α)
  | [], k, v => [(k, v)]
  | (k', v') :: rest, k, v =>
      if k' = k then (k, v) :: rest else (k', v') :: setStore rest k v

/-- The record the code operates on: the stored one, or the lazily
initialized default (lines 181–182). -/
def userAt (store : List (String × UserData)) (sid : String) : UserData :=
  match lookupS store sid with
  | some u => u
  | none => initUser

/-! ### submit_assessment_result -/

/-- The stored entry built from an input mistake dict (lines 231–239). -/
def mkMistakeEntry (level : Int) (ts : String) (m : MistakeIn) : MistakeEntry :=
  { question := m.question, correct_answer := m.correct_answer,
    explanation := m.explanation, user_answer := m.user_answer,
    level := level, comments := "", timestamp := ts }

@[simp] theorem mkMistakeEntry_question (level : Int) (ts : String)
    (m : MistakeIn) : (mkMistakeEntry level ts m).question = m.question := rfl

/-- The mistake-dedup step of lines 228–239: append the entry unless an
entry with the same question text is already present. -/
def addMistake (level : Int) (ts : String) (acc : List MistakeEntry)
    (m : MistakeIn) : List MistakeEntry :=
  if acc.any (fun dm => dm.question == m.question) then acc
  else acc ++ [mkMistakeEntry level ts m]

/-- The Bloom's-logic block of lines 190–211: given the submitted level and
score and the current `unlocked_level`, produce
`(xp_gained, passed, new unlocked_level)`.  `rand` is the oracle for
`random.randint`. -/
def submitCore (rand : Nat → Nat → Nat) (level score cur : Int) :
    Nat × Bool × Int :=
  if level = 1 then
    if 8 ≤ score then (rand 50 100, true, if cur < 2 then 2 else cur)
    else (0, false, cur)
  else if level = 2 then
    if 7 ≤ score then (rand 100 150, true, if cur < 3 then 3 else cur)
    else (0, false, cur)
  else if level = 3 then
    if 0 < score then (rand 150 200, true, cur)
    else (0, false, cur)
  else (0, false, cur)

/-- The per-session effect of `submit_assessment_result` (lines 187–249)
on an already-loaded-or-initialized record.  A `mistakes` argument of
`none` models Python `None`; `some []` and `none` coincide because the
code's `if mistakes:` guard only skips an empty loop. -/
def submit_user (rand : Nat → Nat → Nat) (ts : String) (u : UserData)
    (level score max_score : Int) (ms : Option (List MistakeIn)) :
    UserData × SubmitResult :=
  let c := submitCore rand level score u.unlocked_level
  let xp' := if c.2.1 then u.xp + c.1 else u.xp
  let u' : UserData :=
    { xp := xp',
      unlocked_level := c.2.2,
      history := u.history ++
        [{ level := level, score := score, max_score := max_score,
           passed := c.2.1, xp_gained := c.1, timestamp := ts }],
      mistakes :=
        match ms with
        | none => u.mistakes
        | some l => l.foldl (addMistake level ts) u.mistakes }
  (u', { passed := c.2.1, xp_gained := c.1, new_total_xp := u'.xp,
         unlocked_level := u'.unlocked_level, score := score })

/-- The operation `submit_assessment_result(session_id, level, score, max_score, mistakes)`:
load or initialize the session record, apply the submission, and persist the
store (`save_user_progress` writes the whole mapping back, modelled by the
returned store). -/
def submit_assessment_result (rand : Nat → Nat → Nat) (ts : String)
    (store : List (String × UserData)) (sid : String)
    (level score max_score : Int) (ms : Option (List MistakeIn)) :
    List (String × UserData) × SubmitResult :=
  let p := submit_user rand ts (userAt store sid) level score max_score ms
  (setStore store sid p.1, p.2)

/-! ### Basic store lemmas -/

theorem lookupS_setStore {α : Type} (store : List (String × α)) (k : String)
    (v : α) : lookupS (setStore store k v) k = some v := by
  induction store with
  | nil => simp [setStore, lookupS]
  | cons hd tl ih =>
      obtain ⟨k', v'⟩ := hd
      by_cases h : k' = k
      · simp [setStore, lookupS, h]
      · simp [setStore, lookupS, h, ih]

theorem userAt_submit (rand : Nat → Nat → Nat) (ts : String)
    (store : List (String × UserData)) (sid : String)
    (level score max_score : Int) (ms : Option (List MistakeIn)) :
    userAt (submit_assessment_result rand ts store sid level score max_score ms).1 sid
      = (submit_user rand ts (userAt store sid) level score max_score ms).1 := by
  simp [submit_assessment_result, userAt, lookupS_setStore]

/-! ### Per-user facts about the submission logic -/

theorem submit_user_unlock_mono (rand : Nat → Nat → Nat) (ts : String)
    (u : UserData) (level score max_score : Int) (ms : Option (List MistakeIn)) :
    u.unlocked_level ≤ (submit_user rand ts u level score max_score ms).1.unlocked_level := by
  simp only [submit_user, submitCore]
  split_ifs <;> simp <;> omega

/-- One submission call, bundling all of its (oracle and caller) inputs. -/
structure SubmitCall where
  rand : Nat → Nat → Nat
  ts : String
  level : Int
  score : Int
  max_score : Int
  mistakes : Option (List MistakeIn)

/-- A sequence of `submit_assessment_result` calls against one session. -/
def runCalls (store : List (String × UserData)) (sid : String) :
    List SubmitCall → List (String × UserData)
  | [] => store
  | c :: rest =>
      runCalls (submit_assessment_result c.rand c.ts store sid c.level c.score
        c.max_score c.mistakes).1 sid rest

/-- C2: across any sequence of `submit_assessment_result` calls for a
session, the stored `unlocked_level` never decreases (an absent session
counts as the initialization value 1, which the first call stores). -/
theorem unlocked_level_monotone (store : List (String × UserData))
    (sid : String) (calls : List SubmitCall) :
    (userAt store sid).unlocked_level ≤ (userAt (runCalls store sid calls) sid).unlocked_level := by
  induction calls generalizing store with
  | nil => simp [runCalls]
  | cons c rest ih =>
      refine le_trans ?_ (ih (submit_assessment_result c.rand c.ts store sid
        c.level c.score c.max_score c.mistakes).1)
      rw [userAt_submit]
      exact submit_user_unlock_mono c.rand c.ts (userAt store sid) c.level c.score
        c.max_score c.mistakes

/-- C1: the pass/XP policy of `submit_assessment_result`.  `rand` is the
oracle for `random.randint`, whose contract is the hypothesis `hr`. -/
theorem submit_xp_policy (rand : Nat → Nat → Nat) (ts : String)
    (store : List (String × UserData)) (sid : String)
    (level score max_score : Int) (ms : Option (List MistakeIn))
    (hr : ∀ a b : Nat, a ≤ b → a ≤ rand a b ∧ rand a b ≤ b) :
    let u := userAt store sid
    let out := submit_assessment_result rand ts store sid level score max_score ms
    let r := out.2
    let u' := userAt out.1 sid
    (level = 1 → ((r.passed = true) ↔ 8 ≤ score)
      ∧ (r.passed = true → 50 ≤ r.xp_gained ∧ r.xp_gained ≤ 100 ∧ 2 ≤ u'.unlocked_level))
  ∧ (level = 2 → ((r.passed = true) ↔ 7 ≤ score)
      ∧ (r.passed = true → 100 ≤ r.xp_gained ∧ r.xp_gained ≤ 150 ∧ 3 ≤ u'.unlocked_level))
  ∧ (level = 3 → ((r.passed = true) ↔ 0 < score)
      ∧ (r.passed = true → 150 ≤ r.xp_gained ∧ r.xp_gained ≤ 200
          ∧ u'.unlocked_level = u.unlocked_level))
  ∧ (r.passed = false → r.xp_gained = 0 ∧ u'.xp = u.xp
      ∧ u'.unlocked_level = u.unlocked_level)
  ∧ r.new_total_xp = u.xp + r.xp_gained := by
  have h50 := hr 50 100 (by norm_num)
  have h100 := hr 100 150 (by norm_num)
  have h150 := hr 150 200 (by norm_num)
  dsimp only
  rw [userAt_submit]
  simp only [submit_assessment_result, submit_user, submitCore]
  split_ifs <;> simp_all

/-- C10: a submission with a level outside {1,2,3} is recorded as a failed
attempt: passed=false, xp_gained=0, xp and unlocked_level unchanged, yet a
history event for that level is appended and the store is persisted. -/
theorem invalid_level_submission (rand : Nat → Nat → Nat) (ts : String)
    (store : List (String × UserData)) (sid : String)
    (level score max_score : Int) (ms : Option (List MistakeIn))
    (h1 : level ≠ 1) (h2 : level ≠ 2) (h3 : level ≠ 3) :
    let u := userAt store sid
    let out := submit_assessment_result rand ts store sid level score max_score ms
    out.2.passed = false ∧ out.2.xp_gained = 0 ∧ out.2.new_total_xp = u.xp
  ∧ ∃ u', lookupS out.1 sid = some u' ∧ u'.xp = u.xp
      ∧ u'.unlocked_level = u.unlocked_level
      ∧ u'.history = u.history ++
          [{ level := level, score := score, max_score := max_score,
             passed := false, xp_gained := 0, timestamp := ts }] := by
  dsimp only
  simp only [submit_assessment_result, submit_user, submitCore, h1, h2, h3, if_false]
  refine ⟨by simp, by simp, by simp, ?_⟩
  refine ⟨_, lookupS_setStore store sid _, by simp, by simp, by simp⟩

/-! ### Mistake deduplication -/

/-- Number of stored mistake entries having question text `q`. -/
def countQ (q : String) (l : List MistakeEntry) : Nat :=
  (l.filter (fun e => e.question == q)).length

theorem countQ_append_single (q : String) (e : MistakeEntry)
    (acc : List MistakeEntry) :
    countQ q (acc ++ [e]) = countQ q acc + (if e.question = q then 1 else 0) := by
  simp only [countQ, List.filter_append, List.length_append, List.filter_cons,
    List.filter_nil]
  split_ifs with h h' h' <;> simp_all

theorem any_question_iff_countQ (x : String) (acc : List MistakeEntry) :
    (acc.any (fun dm => dm.question == x)) = true ↔ countQ x acc ≠ 0 := by
  simp only [countQ, List.any_eq_true, Ne, List.length_eq_zero,
    List.filter_eq_nil_iff]
  push_neg
  simp

/-- Characterization of the dedup fold of lines 228–239: an incoming
question gains exactly one entry when none was stored, and entries already
present block all later additions of the same question. -/
theorem countQ_foldl_addMistake (level : Int) (ts : String)
    (ms : List MistakeIn) (acc : List MistakeEntry) (q : String) :
    countQ q (ms.foldl (addMistake level ts) acc) =
      if countQ q acc = 0 ∧ q ∈ ms.map MistakeIn.question then 1
      else countQ q acc := by
  induction ms generalizing acc with
  | nil => simp
  | cons m rest ih =>
      simp only [List.foldl_cons, List.map_cons, List.mem_cons]
      rw [ih]
      by_cases hex : (acc.any (fun dm => dm.question == m.question)) = true
      · have hc : countQ m.question acc ≠ 0 :=
          (any_question_iff_countQ m.question acc).mp hex
        rw [addMistake, if_pos hex]
        by_cases hq : q = m.question
        · subst hq; simp [hc]
        · simp [hq]
      · have hc0 : countQ m.question acc = 0 := by
          by_contra hne
          exact hex ((any_question_iff_countQ m.question acc).mpr hne)
        rw [addMistake, if_neg hex]
        by_cases hq : q = m.question
        · subst hq
          rw [countQ_append_single]
          simp [hc0]
        · rw [countQ_append_single]
          simp [hq, Ne.symm hq]

theorem foldl_addMistake_prefix (level : Int) (ts : String)
    (ms : List MistakeIn) (acc : List MistakeEntry) :
    ∃ extra, ms.foldl (addMistake level ts) acc = acc ++ extra := by
  induction ms generalizing acc with
  | nil => exact ⟨[], by simp⟩
  | cons m rest ih =>
      simp only [List.foldl_cons]
      obtain ⟨ex, hex⟩ := ih (addMistake level ts acc m)
      rw [hex, addMistake]
      split_ifs with h
      · exact ⟨ex, rfl⟩
      · exact ⟨mkMistakeEntry level ts m :: ex, by simp⟩

/-- C3: no two stored mistakes share question text — duplicates, whether
already stored or repeated within one submission, are silently dropped and
the first-written entry is kept. -/
theorem mistake_dedup (rand : Nat → Nat → Nat) (ts : String)
    (store : List (String × UserData)) (sid : String)
    (level score max_score : Int) (ms : List MistakeIn) :
    let u := userAt store sid
    let out := submit_assessment_result rand ts store sid level score max_score (some ms)
    let u' := userAt out.1 sid
    (∀ q, countQ q u'.mistakes =
        if countQ q u.mistakes = 0 ∧ q ∈ ms.map MistakeIn.question then 1
        else countQ q u.mistakes)
  ∧ ((∀ q, countQ q u.mistakes ≤ 1) → ∀ q, countQ q u'.mistakes ≤ 1)
  ∧ (∃ extra, u'.mistakes = u.mistakes ++ extra)
  ∧ (∀ q, countQ q u.mistakes = 0 → q ∈ ms.map MistakeIn.question →
        countQ q u'.mistakes = 1) := by
  dsimp only
  rw [userAt_submit]
  have hmist : (submit_user rand ts (userAt store sid) level score max_score
      (some ms)).1.mistakes = ms.foldl (addMistake level ts) (userAt store sid).mistakes := rfl
  rw [hmist]
  refine ⟨fun q => countQ_foldl_addMistake level ts ms _ q, ?_, ?_, ?_⟩
  · intro hone q
    rw [countQ_foldl_addMistake]
    split_ifs with h
    · exact le_refl 1
    · exact hone q
  · exact foldl_addMistake_prefix level ts ms _
  · intro q h0 hmem
    rw [countQ_foldl_addMistake]
    simp [h0, hmem]

/-- Witness for C3: submitting two mistakes with identical question text to
a fresh session stores exactly one entry. -/
theorem mistake_dedup_witness :
    countQ "q" (userAt (submit_assessment_result (fun a _ => a) "0" [] "s" 1 9 10
      (some [⟨"q", none, none, none⟩, ⟨"q", some "a", none, none⟩])).1 "s").mistakes = 1 := by
  have h := mistake_dedup (fun a _ => a) "0" [] "s" 1 9 10
    [⟨"q", none, none, none⟩, ⟨"q", some "a", none, none⟩]
  exact h.2.2.2 "q" (by decide) (by decide)

/-- Witness for C1 at a concrete input. -/
theorem submit_xp_policy_witness :
    let out := submit_assessment_result (fun a _ => a) "0" [] "s" 1 9 10 none
    out.2.passed = true ∧ out.2.xp_gained = 50 ∧ out.2.new_total_xp = 50
      ∧ (userAt out.1 "s").unlocked_level = 2 := by
  have h := submit_xp_policy (fun a _ => a) "0" [] "s" 1 9 10 none
    (fun a b hab => ⟨le_refl a, hab⟩)
  refine ⟨?_, by decide, by decide, by decide⟩
  exact ((h.1 rfl).1).mpr (by norm_num)

/-- Witness for C10 at a concrete input. -/
theorem invalid_level_submission_witness :
    let u := userAt [] "s"
    let out := submit_assessment_result (fun a _ => a) "0" [] "s" 5 3 10 none
    out.2.passed = false ∧ out.2.xp_gained = 0 ∧ out.2.new_total_xp = u.xp
  ∧ ∃ u', lookupS out.1 "s" = some u' ∧ u'.xp = u.xp
      ∧ u'.unlocked_level = u.unlocked_level
      ∧ u'.history = u.history ++
          [{ level := 5, score := 3, max_score := 10,
             passed := false, xp_gained := 0, timestamp := "0" }] :=
  invalid_level_submission (fun a _ => a) "0" [] "s" 5 3 10 none
    (by decide) (by decide) (by decide)

/-! ### Markdown-fence stripping and JSON normalization

The external parsers are oracle parameters: `parse` stands for
`json.loads` (`none` = raises), `repairJson` for `json_repair.repair_json`. -/

/-- Fence stripping of `generate_assessment` lines 144–147: Python
`content[7:-3]` resp. `content[3:-3]`, applied when the (already stripped)
content starts with a fence; the trailing 3 characters are removed blindly. -/
def stripFencesAssess (s : String) : String :=
  if pyStartsWith s "```json" then pyDropRight (pyDrop s 7) 3
  else if pyStartsWith s "```" then pyDropRight (pyDrop s 3) 3
  else s

/-- Fence stripping of `generate_roadmap` lines 92–97: drop a leading
"```json" tag, then drop a trailing "```" when present, then re-strip. -/
def stripFencesRoad (s : String) : String :=
  let t := if pyStartsWith s "```json" then pyDrop s 7 else s
  let t2 := if pyEndsWith t "```" then pyDropRight t 3 else t
  pyStrip t2

/-- The normalization step inside `generate_assessment` (lines 141–149 with
the except of line 164): strict parse of the fence-stripped text; a parse
failure is caught and converted to the generic error payload. -/
def normalize_assessment {J : Type} (parse : String → Option J)
    (raw : String) : Except String J :=
  match parse (stripFencesAssess (pyStrip raw)) with
  | some v => Except.ok v
  | none => Except.error "Failed to generate assessment."

/-- The normalization step inside `generate_roadmap` (lines 92–107):
`json.loads(repair_json(text))` — the repair pass is applied
unconditionally — with parse failures converted to an error payload. -/
def normalize_roadmap {J : Type} (parse : String → Option J)
    (repairJson : String → String) (raw : String) : Except String J :=
  match parse (repairJson (stripFencesRoad (pyStrip raw))) with
  | some v => Except.ok v
  | none => Except.error "Failed to parse AI response"

/-- Fence stripping as the specification words it: a leading fence marker
with or without a language tag, and a trailing fence marker, each removed
when present. -/
def stripFencesSpec (s : String) : String :=
  let t :=
    if pyStartsWith s "```json" then pyDrop s 7
    else if pyStartsWith s "```" then pyDrop s 3
    else s
  if pyEndsWith t "```" then pyDropRight t 3 else t

/-- The Response Normalizer as the specification words it (spec 4.3):
strict parse first, a lenient repair pass only on failure, and an error
payload when repair also fails. -/
def normalize_spec {J : Type} (parse : String → Option J)
    (repairJson : String → String) (raw : String) : Except String J :=
  let text := stripFencesSpec (pyStrip raw)
  match parse text with
  | some v => Except.ok v
  | none =>
      match parse (repairJson text) with
      | some v => Except.ok v
      | none => Except.error "parse failed"

/-- A parse oracle accepting exactly the text "[]". -/
def parseOnlyBrackets : String → Option Unit :=
  fun s => if s = "[]" then some () else none

/-- A repair oracle mapping every text to "[]". -/
def repairToBrackets : String → String :=
  fun _ => "[]"

/-- A parse oracle that always fails. -/
def parseNever : String → Option Unit :=
  fun _ => none

/-- An identity repair oracle. -/
def repairId : String → String :=
  fun s => s

/-- C7 counterexample: on raw text "x" with a parse oracle for which strict
parsing fails but the repaired text parses, the spec-described normalizer
succeeds while the assessment-path code returns the error payload — the
assessment path never invokes any repair pass. -/
theorem normalizer_repair_counterexample :
    normalize_spec parseOnlyBrackets repairToBrackets "x" = Except.ok ()
  ∧ normalize_assessment parseOnlyBrackets "x" =
      Except.error "Failed to generate assessment." := by
  constructor <;> rfl

/-- C7 amended: both normalizers convert parse failure into an error
payload instead of raising; the roadmap path applies the lenient repair
pass unconditionally before parsing, while the assessment path attempts
only a strict parse of the fence-stripped text, with no repair pass. -/
theorem normalize_behavior {J : Type} (parse : String → Option J)
    (repairJson : String → String) (raw : String) :
    (parse (stripFencesAssess (pyStrip raw)) = none →
        normalize_assessment parse raw =
          Except.error "Failed to generate assessment.")
  ∧ (∀ v, parse (stripFencesAssess (pyStrip raw)) = some v →
        normalize_assessment parse raw = Except.ok v)
  ∧ (parse (repairJson (stripFencesRoad (pyStrip raw))) = none →
        normalize_roadmap parse repairJson raw =
          Except.error "Failed to parse AI response")
  ∧ (∀ v, parse (repairJson (stripFencesRoad (pyStrip raw))) = some v →
        normalize_roadmap parse repairJson raw = Except.ok v) := by
  refine ⟨fun h => ?_, fun v h => ?_, fun h => ?_, fun v h => ?_⟩ <;>
    simp [normalize_assessment, normalize_roadmap, h]

/-- Witness for the amended C7 at concrete inputs. -/
theorem normalize_behavior_witness :
    normalize_assessment parseNever "x" =
      Except.error "Failed to generate assessment."
  ∧ normalize_roadmap parseNever repairId "x" =
      Except.error "Failed to parse AI response" :=
  ⟨(normalize_behavior parseNever repairId "x").1 rfl,
   (normalize_behavior parseNever repairId "x").2.2.1 rfl⟩

/-! ### generate_assessment (`assessment_service.py` lines 123–166) -/

/-- The value cached and returned on success (lines 152–156). -/
structure Assessment (Q : Type) where
  level : Int
  timer_seconds : Nat
  questions : Q
deriving DecidableEq, Repr

/-- The result payload of `generate_assessment`: either an assessment dict
or an `{"error": ...}` dict. -/
inductive GenOut (Q : Type) where
  | payload : Assessment Q → GenOut Q
  | failure : String → GenOut Q
deriving DecidableEq, Repr

/-- The operation `generate_assessment(session_id, level)`, for one `(session, level)`
key.  Oracle inputs: `cache` is the cache-file content for this key (`none`
= file absent), `contextText` the result of `get_session_text`, `llmResp`
the raw model output (`none` = `llm.invoke` raises), `parse` stands for
`json.loads`.  Returns (result, new cache content, whether the model was
invoked). -/
def generate_assessment {Q : Type} (level : Int) (cache : Option (Assessment Q))
    (contextText : String) (llmResp : Option String)
    (parse : String → Option Q) : GenOut Q × Option (Assessment Q) × Bool :=
  match cache with
  | some c => (GenOut.payload c, some c, false)
  | none =>
      if contextText = "" then
        (GenOut.failure "No documents found for this session.", none, false)
      else
        match llmResp with
        | none => (GenOut.failure "Failed to generate assessment.", none, true)
        | some resp =>
            match parse (stripFencesAssess (pyStrip resp)) with
            | none => (GenOut.failure "Failed to generate assessment.", none, true)
            | some qs =>
                let result : Assessment Q :=
                  { level := level, timer_seconds := 600, questions := qs }
                (GenOut.payload result, some result, true)

/-- C4: with a cache entry present, `generate_assessment` returns it
verbatim without invoking the model; and whenever a call leaves a cache
entry behind, that entry is exactly the payload it returned — so a second
call after a success returns byte-identical content without a second model
invocation. -/
theorem generate_assessment_idempotent {Q : Type} (level : Int)
    (c : Assessment Q) (ctx : String) (llm : Option String)
    (parse : String → Option Q) :
    generate_assessment level (some c) ctx llm parse
      = (GenOut.payload c, some c, false)
  ∧ (∀ (level₀ : Int) (ctx₀ : String) (llm₀ : Option String)
        (parse₀ : String → Option Q) (out : GenOut Q) (a : Assessment Q)
        (inv : Bool),
      generate_assessment level₀ none ctx₀ llm₀ parse₀ = (out, some a, inv) →
      out = GenOut.payload a) := by
  constructor
  · rfl
  · intro level₀ ctx₀ llm₀ parse₀ out a inv h
    simp only [generate_assessment] at h
    split_ifs at h with hctx
    · simp at h
    · split at h
      · simp at h
      · split at h
        · simp at h
        · simp only [Prod.mk.injEq] at h
          obtain ⟨h1, h2, -⟩ := h
          rw [← h1]
          exact congrArg GenOut.payload (Option.some.inj h2)

/-- Witness for C4: a concrete cached call, and a concrete success whose
cached entry equals the returned payload. -/
theorem generate_assessment_idempotent_witness :
    generate_assessment 1 (some ⟨1, 600, ()⟩) "ctx" none parseNever
      = (GenOut.payload ⟨1, 600, ()⟩, some ⟨1, 600, ()⟩, false)
  ∧ (GenOut.payload (⟨1, 600, ()⟩ : Assessment Unit)
      = GenOut.payload (⟨1, 600, ()⟩ : Assessment Unit)) :=
  ⟨(generate_assessment_idempotent 1 ⟨1, 600, ()⟩ "ctx" none parseNever).1,
   (generate_assessment_idempotent 1 ⟨1, 600, ()⟩ "ctx" none parseNever).2
     1 "c" (some "[]") (fun _ => some ()) (GenOut.payload ⟨1, 600, ()⟩)
     ⟨1, 600, ()⟩ true (by rfl)⟩

/-- C5: `generate_assessment` never raises on collaborator failure.  With
no cache entry: empty extracted text yields the structured "no documents"
error without invoking the model; a model-call failure or a parse failure
yields the structured generic failure; and in every failure case nothing is
cached, so a retry reattempts generation. -/
theorem generate_assessment_errors {Q : Type} (level : Int) (ctx : String)
    (llm : Option String) (parse : String → Option Q) (resp : String) :
    (generate_assessment level (none : Option (Assessment Q)) "" llm parse
      = (GenOut.failure "No documents found for this session.", none, false))
  ∧ (ctx ≠ "" →
      generate_assessment level (none : Option (Assessment Q)) ctx none parse
        = (GenOut.failure "Failed to generate assessment.", none, true))
  ∧ (ctx ≠ "" → parse (stripFencesAssess (pyStrip resp)) = none →
      generate_assessment level (none : Option (Assessment Q)) ctx (some resp) parse
        = (GenOut.failure "Failed to generate assessment.", none, true)) := by
  refine ⟨by simp [generate_assessment],
    fun h => by simp [generate_assessment, h],
    fun h hp => by simp [generate_assessment, h, hp]⟩

/-- Witness for C5 at concrete inputs. -/
theorem generate_assessment_errors_witness :
    (generate_assessment 1 (none : Option (Assessment Unit)) "" none parseNever
      = (GenOut.failure "No documents found for this session.", none, false))
  ∧ (generate_assessment 1 (none : Option (Assessment Unit)) "text" none parseNever
      = (GenOut.failure "Failed to generate assessment.", none, true))
  ∧ (generate_assessment 1 (none : Option (Assessment Unit)) "text" (some "x") parseNever
      = (GenOut.failure "Failed to generate assessment.", none, true)) :=
  ⟨(generate_assessment_errors 1 "text" none parseNever "x").1,
   (generate_assessment_errors 1 "text" none parseNever "x").2.1 (by decide),
   (generate_assessment_errors 1 "text" none parseNever "x").2.2 (by decide) rfl⟩

/-! ### get_session_text (`assessment_service.py` lines 23–42) -/

/-- A directory entry of the session folder: its file name and the
`partition_pdf` outcome (`none` = the parse raised; `some es` = the
extracted elements, already stringified). -/
structure PdfFile where
  name : String
  elements : Option (List String)
deriving DecidableEq, Repr

/-- The filter of line 34: `filename.lower().endswith(".pdf")`. -/
def isPdfName (f : PdfFile) : Bool :=
  pyEndsWith (pyLower f.name) ".pdf"

/-- One file's contribution (lines 36–40): elements joined with newlines,
or nothing when extraction failed. -/
def fileText (f : PdfFile) : String :=
  match f.elements with
  | some es => String.intercalate "\n" es
  | none => ""

/-- The extractor `get_session_text(session_id)`: `dirPresent` models
`os.path.exists(session_dir)`, `files` the `os.listdir` entries in order.
Contributions are accumulated with `+=` (no separator between files) and
the result is truncated to 50,000 characters. -/
def get_session_text (dirPresent : Bool) (files : List PdfFile) : String :=
  if dirPresent then
    pyTake ((files.filter isPdfName).foldl (fun acc f => acc ++ fileText f) "") 50000
  else ""

/-- The Text Extractor as the specification words it: the per-PDF extracted
texts concatenated with newline separators, truncated to 50,000
characters. -/
def get_session_text_per_spec (dirPresent : Bool) (files : List PdfFile) : String :=
  if dirPresent then
    pyTake (String.intercalate "\n" ((files.filter isPdfName).map fileText)) 50000
  else ""

/-- C8 counterexample: with two PDFs extracting "aaa" and "bbb", the code
concatenates the per-file texts with no separator ("aaabbb"), not with a
newline between files as claimed ("aaa\nbbb"). -/
theorem session_text_separator_counterexample :
    get_session_text true [⟨"a.pdf", some ["aaa"]⟩, ⟨"b.pdf", some ["bbb"]⟩] = "aaabbb"
  ∧ get_session_text_per_spec true [⟨"a.pdf", some ["aaa"]⟩, ⟨"b.pdf", some ["bbb"]⟩]
      = "aaa\nbbb"
  ∧ ("aaabbb" : String) ≠ "aaa\nbbb" :=
  ⟨by decide, by decide, by decide⟩

/-- C8 amended: the result is bounded by 50,000 characters; a missing
session folder or an absence of PDF entries yields the empty string; a
file whose extraction fails contributes nothing (the remaining files are
still processed); and the result is the direct concatenation — with no
separator between files — of the per-file texts (each file's elements
joined with newlines), truncated to 50,000 characters. -/
theorem get_session_text_props (dirPresent : Bool) (files : List PdfFile) :
    (get_session_text dirPresent files).length ≤ 50000
  ∧ (dirPresent = false → get_session_text dirPresent files = "")
  ∧ (files.filter isPdfName = [] → get_session_text dirPresent files = "")
  ∧ (∀ l1 l2 nm, files = l1 ++ ⟨nm, none⟩ :: l2 →
      get_session_text dirPresent files = get_session_text dirPresent (l1 ++ l2))
  ∧ get_session_text true files
      = pyTake (String.join ((files.filter isPdfName).map fileText)) 50000 := by
  refine ⟨?_, ?_, ?_, ?_, ?_⟩
  · by_cases h : dirPresent
    · show ((if dirPresent then _ else _ : String)).length ≤ 50000
      rw [if_pos h]
      show ((_ : List Char).take 50000).length ≤ 50000
      rw [List.length_take]
      exact min_le_left _ _
    · simp [get_session_text, h]
  · intro h
    simp [get_session_text, h]
  · intro h
    simp [get_session_text, h, pyTake]
  · intro l1 l2 nm hf
    subst hf
    by_cases h : dirPresent
    · simp only [get_session_text, if_pos h]
      congr 1
      rw [List.filter_append, List.filter_append, List.filter_cons]
      by_cases hp : isPdfName ⟨nm, none⟩
      · rw [if_pos hp, List.foldl_append, List.foldl_append, List.foldl_cons]
        have : ∀ acc : String, acc ++ fileText ⟨nm, none⟩ = acc := fun acc => by
          show acc ++ "" = acc
          exact String.append_empty acc
        rw [this]
      · rw [if_neg hp]
    · simp [get_session_text, h]
  · simp only [get_session_text, if_pos, String.join, List.foldl_map]

/-- Witness for the amended C8 at concrete inputs. -/
theorem get_session_text_props_witness :
    get_session_text false [] = ""
  ∧ get_session_text true [⟨"a.txt", some ["t"]⟩] = ""
  ∧ get_session_text true [⟨"a.pdf", some ["t"]⟩, ⟨"b.pdf", none⟩]
      = get_session_text true [⟨"a.pdf", some ["t"]⟩] :=
  ⟨(get_session_text_props false []).2.1 rfl,
   (get_session_text_props true [⟨"a.txt", some ["t"]⟩]).2.2.1 (by decide),
   (get_session_text_props true [⟨"a.pdf", some ["t"]⟩, ⟨"b.pdf", none⟩]).2.2.2.1
     [⟨"a.pdf", some ["t"]⟩] [] "b.pdf" rfl⟩

/-! ### Roadmap data model (`roadmap_service.py`) -/

/-- A question of a roadmap day (question text, type tag, hint). -/
structure RoadQuestion where
  question : String
  qtype : String
  hint : String
deriving DecidableEq, Repr

/-- A day of a roadmap week. -/
structure Day where
  day_number : Int
  topic : String
  learning_objectives : List String
  youtube_video_title : String
  youtube_video_url : String
  reference_content : String
  questions : List RoadQuestion
deriving DecidableEq, Repr

/-- A week of a roadmap. -/
structure Week where
  week_number : Int
  goal : String
  days : List Day
deriving DecidableEq, Repr

/-- A persisted roadmap.  `progress_percentage` is modelled as an exact
rational (Python evaluates `(days_completed / total_days) * 100` in exact
integer arithmetic lifted to a float; rounding of the float representation
is outside this model). -/
structure Roadmap where
  id : String
  session_id : String
  title : String
  description : String
  created_at : String
  status : String
  total_days : Int
  days_completed : Int
  progress_percentage : ℚ
  completed_days : List Int
  weeks : List Week
deriving DecidableEq, Repr

/-- A day object returned by the week-content generation call; every field
is read with `dict.get`, hence `Option`-valued. -/
structure NewDay where
  day_number : Option Int
  learning_objectives : Option (List String)
  youtube_video_title : Option String
  youtube_video_url : Option String
  reference_content : Option String
  questions : Option (List RoadQuestion)
deriving DecidableEq, Repr

/-! ### update_progress (`roadmap_service.py` lines 236–250)

The roadmap store is an association list keyed by the file name
(`get_roadmap` reads by the requested id; `save_roadmap` writes under the
roadmap's own `id` field).  The lazy creation of the `completed_days` key
(lines 241–242) is absorbed by the field always being present. -/

/-- The operation `update_progress(roadmap_id, day_number)`: returns (returned value,
store after the call). -/
def update_progress (store : List (String × Roadmap)) (rid : String)
    (day : Int) : Option Roadmap × List (String × Roadmap) :=
  match lookupS store rid with
  | none => (none, store)
  | some rm =>
      if day ∈ rm.completed_days then (some rm, store)
      else
        let cd := rm.completed_days ++ [day]
        let rm' := { rm with
          completed_days := cd,
          days_completed := (cd.length : Int),
          progress_percentage := ((cd.length : ℚ) / (rm.total_days : ℚ)) * 100 }
        (some rm', setStore store rm'.id rm')

/-- The progress invariant of spec 3: `days_completed` counts the
completed-days set, `progress_percentage` is exactly
`100 * days_completed / total_days`, and `completed_days` is a set (no
duplicates). -/
def rmInvariant (rm : Roadmap) : Prop :=
  rm.days_completed = (rm.completed_days.length : Int)
  ∧ rm.progress_percentage
      = 100 * (rm.completed_days.length : ℚ) / (rm.total_days : ℚ)
  ∧ rm.completed_days.Nodup

/-- C6: `update_progress` returns null when the roadmap is absent, is a
no-op when the day is already recorded, and otherwise adds the day to the
completed-days set and re-establishes the progress invariant. -/
theorem update_progress_invariant (store : List (String × Roadmap))
    (rid : String) (day : Int) :
    (lookupS store rid = none → update_progress store rid day = (none, store))
  ∧ (∀ rm, lookupS store rid = some rm → day ∈ rm.completed_days →
      update_progress store rid day = (some rm, store))
  ∧ (∀ rm, lookupS store rid = some rm → rmInvariant rm →
      ∃ rm', (update_progress store rid day).1 = some rm' ∧ rmInvariant rm'
        ∧ day ∈ rm'.completed_days
        ∧ rm'.completed_days =
            (if day ∈ rm.completed_days then rm.completed_days
             else rm.completed_days ++ [day])) := by
  refine ⟨fun h => by simp [update_progress, h], fun rm h hmem => ?_, fun rm h hinv => ?_⟩
  · simp [update_progress, h, hmem]
  · by_cases hmem : day ∈ rm.completed_days
    · exact ⟨rm, by simp [update_progress, h, hmem], hinv, hmem, by simp [hmem]⟩
    · refine ⟨{ rm with
          completed_days := rm.completed_days ++ [day],
          days_completed := ((rm.completed_days ++ [day]).length : Int),
          progress_percentage :=
            (((rm.completed_days ++ [day]).length : ℚ) / (rm.total_days : ℚ)) * 100 },
        ?_, ?_, ?_, ?_⟩
      · simp [update_progress, h, hmem]
      · obtain ⟨-, -, hnd⟩ := hinv
        refine ⟨rfl, by ring, ?_⟩
        show (rm.completed_days ++ [day]).Nodup
        simp [List.nodup_append, hnd, hmem]
      · show day ∈ rm.completed_days ++ [day]
        simp
      · simp [hmem]

/-- A concrete freshly-generated roadmap (zeroed progress counters, as
`generate_roadmap` initializes them). -/
def rmSample : Roadmap :=
  { id := "r", session_id := "s", title := "T", description := "",
    created_at := "", status := "active", total_days := 30,
    days_completed := 0, progress_percentage := 0, completed_days := [],
    weeks := [] }

/-- Witness for C6 at a concrete input. -/
theorem update_progress_invariant_witness :
    update_progress [] "r" 3 = (none, [])
  ∧ ∃ rm', (update_progress [("r", rmSample)] "r" 3).1 = some rm'
      ∧ rmInvariant rm' ∧ 3 ∈ rm'.completed_days
      ∧ rm'.completed_days =
          (if 3 ∈ rmSample.completed_days then rmSample.completed_days
           else rmSample.completed_days ++ [3]) :=
  ⟨(update_progress_invariant [] "r" 3).1 rfl,
   (update_progress_invariant [("r", rmSample)] "r" 3).2.2 rmSample rfl
     ⟨rfl, by norm_num [rmSample], by simp [rmSample]⟩⟩

/-! ### generate_week_content (`roadmap_service.py` lines 155–234) -/

/-- The result dict of `generate_week_content`. -/
inductive WeekOut where
  | failure : String → WeekOut
  | success : Int → WeekOut
deriving DecidableEq, Repr

/-- The merge of one response day into a stored day (lines 216–223). -/
def updateDay (d : Day) (nd : NewDay) : Day :=
  { d with
    learning_objectives := nd.learning_objectives.getD [],
    youtube_video_title := nd.youtube_video_title.getD "",
    youtube_video_url := nd.youtube_video_url.getD "",
    reference_content := nd.reference_content.getD "",
    questions := nd.questions.getD [] }

/-- The day-matching loop of lines 209–223: match by `day_number`, fall
back to positional index, leave the day untouched when neither matches. -/
def mergeDays (days : List Day) (newDays : List NewDay) : List Day :=
  days.enum.map (fun p =>
    match (match newDays.find? (fun nd => nd.day_number == some p.2.day_number) with
           | some nd => some nd
           | none => newDays[p.1]?) with
    | some nd => updateDay p.2 nd
    | none => p.2)

/-- Replace the first week with the given number (the code mutates the
week found by `next(...)`). -/
def updateFirstWeek (weeks : List Week) (wn : Int) (f : Week → Week) : List Week :=
  match weeks with
  | [] => []
  | w :: rest =>
      if w.week_number = wn then f w :: rest else w :: updateFirstWeek rest wn f

/-- The operation `generate_week_content(roadmap_id, week_number)`.  The oracle `api`
is the outcome of the model call plus JSON repair/parse:
`Except.error e` = the API call raised (message `e`); `Except.ok none` =
parsing failed even after repair; `Except.ok (some ds)` = the parsed list
of day objects.  Returns (result dict, store after the call). -/
def generate_week_content (store : List (String × Roadmap)) (rid : String)
    (week_number : Int) (api : Except String (Option (List NewDay))) :
    WeekOut × List (String × Roadmap) :=
  match lookupS store rid with
  | none => (WeekOut.failure "Roadmap not found", store)
  | some rm =>
      match rm.weeks.find? (fun w => w.week_number == week_number) with
      | none =>
          (WeekOut.failure s!"Week {week_number} not found in roadmap outline", store)
      | some _ =>
          match api with
          | Except.error e => (WeekOut.failure e, store)
          | Except.ok none =>
              (WeekOut.failure "Failed to parse AI response for week content", store)
          | Except.ok (some newDays) =>
              let rm' := { rm with
                weeks := updateFirstWeek rm.weeks week_number
                  (fun w => { w with days := mergeDays w.days newDays }) }
              (WeekOut.success week_number, setStore store rm'.id rm')

/-- C9: `generate_week_content` returns a structured "not found" error and
leaves the store unmodified when the roadmap is absent or when the roadmap
has no week with the requested number. -/
theorem week_content_not_found (store : List (String × Roadmap))
    (rid : String) (wn : Int) (api : Except String (Option (List NewDay))) :
    (lookupS store rid = none →
      generate_week_content store rid wn api
        = (WeekOut.failure "Roadmap not found", store))
  ∧ (∀ rm, lookupS store rid = some rm →
      (∀ w ∈ rm.weeks, w.week_number ≠ wn) →
      generate_week_content store rid wn api
        = (WeekOut.failure s!"Week {wn} not found in roadmap outline", store)) := by
  refine ⟨fun h => by simp [generate_week_content, h], fun rm h hw => ?_⟩
  have hfind : rm.weeks.find? (fun w => w.week_number == wn) = none := by
    rw [List.find?_eq_none]
    intro w hwmem
    simpa using hw w hwmem
  simp [generate_week_content, h, hfind]

/-- Witness for C9 at concrete inputs: an empty store, and a roadmap whose
only week is week 1 while week 2 is requested. -/
theorem week_content_not_found_witness :
    generate_week_content [] "r" 1 (Except.ok none)
      = (WeekOut.failure "Roadmap not found", [])
  ∧ generate_week_content
      [("r", { rmSample with weeks := [{ week_number := 1, goal := "g", days := [] }] })]
      "r" 2 (Except.ok none)
      = (WeekOut.failure "Week 2 not found in roadmap outline",
         [("r", { rmSample with weeks := [{ week_number := 1, goal := "g", days := [] }] })]) :=
  ⟨(week_content_not_found [] "r" 1 (Except.ok none)).1 rfl,
   (week_content_not_found
      [("r", { rmSample with weeks := [{ week_number := 1, goal := "g", days := [] }] })]
      "r" 2 (Except.ok none)).2
      { rmSample with weeks := [{ week_number := 1, goal := "g", days := [] }] }
      rfl (by decide)⟩

end AWSHack
